import Mathlib

/-!
Verification development for the DW_tool CRM backend (src/api/app.py and
src/api/microsoft_integration.py).  The two decision cores are embedded
shallowly: Python strings become Lean String (lower-casing is modelled on
ASCII letters, which covers every keyword and status literal in the
source), database rows become structures, SQLAlchemy mutation becomes
functional update, and timestamps are abstracted to Nat instants.
-/

namespace DWTool

/-- Embeds Python str.lower for the ASCII data handled by the program. -/
def lowerS (s : String) : String := ⟨s.data.map Char.toLower⟩

/-- Embeds Python slicing s[:n]. -/
def takeS (n : Nat) (s : String) : String := ⟨s.data.take n⟩

/-- Boolean test that the first list is an initial segment of the second. -/
def startsWithL : List Char → List Char → Bool
  | [], _ => true
  | _ :: _, [] => false
  | a :: as, b :: bs => a == b && startsWithL as bs

/-- Embeds Python str.startswith: s.startswith(p). -/
def startsWithS (s p : String) : Bool := startsWithL p.data s.data

/-- Boolean substring containment on character lists. -/
def containsSub (needle : List Char) : List Char → Bool
  | [] => needle.isEmpty
  | c :: t => startsWithL needle (c :: t) || containsSub needle t

/-- Embeds the Python membership test needle in hay on strings. -/
def pyIn (needle hay : String) : Bool := containsSub needle.data hay.data

/-- Python truthiness of an optional string: None and the empty string are falsy. -/
def strTruthy (s : Option String) : Bool :=
  match s with
  | none => false
  | some t => t ≠ ""

/-- Python truthiness of an optional integer: None and 0 are falsy. -/
def natTruthy (n : Option Nat) : Bool :=
  match n with
  | none => false
  | some k => k ≠ 0

/-!  Pipeline advancement rule (app.py lines 991-1022).  -/

/-- PIPELINE_ORDER from app.py: higher index means further along. -/
def PIPELINE_ORDER : List String :=
  ["Not Contacted", "Attempted", "Connected", "Follow-up Needed",
   "Qualified Lead", "Proposal Sent", "Converted"]

/-- TERMINAL_STATUSES from app.py: statuses that are never auto-advanced. -/
def TERMINAL_STATUSES : List String := ["Not Interested", "Converted"]

/-- The Lead row, restricted to the columns the verified logic reads or writes. -/
structure Lead where
  id : Nat
  email : Option String
  status : Option String
deriving DecidableEq

/-- Embeds the Python expression lead.status or "Not Contacted": a missing or
empty status defaults to "Not Contacted". -/
def currentStatus (l : Lead) : String :=
  match l.status with
  | none => "Not Contacted"
  | some s => if s = "" then "Not Contacted" else s

/-- Embeds PIPELINE_ORDER.index(s) if s in PIPELINE_ORDER else -1. -/
def pipeIdx (s : String) : Int :=
  match PIPELINE_ORDER.findIdx? (fun t => t == s) with
  | some i => (i : Int)
  | none => -1

/-- Embeds advance_lead_status (app.py lines 1004-1022).  The session argument
and the print call carry no state relevant here; the mutation of lead.status
becomes a functional update and a None lead maps to none. -/
def advance_lead_status (lead : Option Lead) (new_status : String) : Option Lead :=
  match lead with
  | none => none
  | some l =>
    if TERMINAL_STATUSES.contains (currentStatus l) then some l
    else if pipeIdx new_status > pipeIdx (currentStatus l) then
      some { l with status := some new_status }
    else some l

/-!  Activity-log endpoints (app.py, quick_log_activity lines 1282-1324 and
create_log lines 1328-1369).  Both handlers share one dispatch deciding which
proposed status the pipeline rule is invoked with for a logged activity. -/

/-- Embeds the auto-advance dispatch common to quick_log_activity and
create_log: the result is the (proposed status, reason) pair passed to
advance_lead_status, or none when the rule is not invoked at all. -/
def log_advance_action (activity_type outcome : String) : Option (String × String) :=
  if activity_type = "Call" then
    if outcome = "Connected" ∨ outcome = "Interested" then
      some ("Connected", "call connected")
    else
      some ("Attempted", "call attempted")
  else if activity_type = "Email" then some ("Attempted", "email logged")
  else if activity_type = "Meeting" then some ("Connected", "meeting logged")
  else none

/-- Embeds the request-field extraction of quick_log_activity: the activity
type defaults to "Call" and the outcome to the empty string. -/
def quick_log_dispatch (activity_type outcome : Option String) : Option (String × String) :=
  log_advance_action (activity_type.getD "Call") (outcome.getD "")

/-- Embeds the request-field extraction of create_log: the activity type and
the outcome both default to the empty string. -/
def create_log_dispatch (activity_type outcome : Option String) : Option (String × String) :=
  log_advance_action (activity_type.getD "") (outcome.getD "")

/-!  Email categorizer (microsoft_integration.py lines 20-65).  -/

/-- OUTREACH_CATEGORIES from microsoft_integration.py, as the ordered
association list the Python dict iteration walks. -/
def OUTREACH_CATEGORIES : List (String × List String) :=
  [("introduction",
    ["introduction", "intro", "reaching out", "first contact",
     "nice to meet", "introducing myself", "let me introduce"]),
   ("follow_up",
    ["follow up", "following up", "checking in", "just wanted to",
     "touching base", "circling back", "quick follow"]),
   ("meeting_date",
    ["meeting date", "schedule", "calendar", "book a time",
     "availability", "let\x27s meet", "meeting request", "call scheduled"]),
   ("contract_deal",
    ["contract deal", "proposal", "agreement", "pricing", "quote",
     "contract", "terms", "offer", "deal terms"]),
   ("deal_closed",
    ["deal closed", "welcome aboard", "signed", "congratulations",
     "looking forward", "thank you for choosing", "welcome to"])]

/-- The nested loops of categorize_email: walk the categories in order and
return the first whose keyword list has a member contained in the
lower-cased subject. -/
def findCategory (subject_lower : String) : List (String × List String) → Option String
  | [] => none
  | (cat, keywords) :: rest =>
    if keywords.any (fun k => pyIn k subject_lower) then some cat
    else findCategory subject_lower rest

/-- Embeds categorize_email (microsoft_integration.py lines 53-65).  The
subject is optional so that the Python falsy guard covers both None and the
empty string. -/
def categorize_email (subject : Option String) : Option String :=
  match subject with
  | none => none
  | some s =>
    if s = "" then none
    else findCategory (lowerS s) OUTREACH_CATEGORIES

/-!  Email send gate (app.py, send_email lines 3007-3018).  -/

/-- The GeneratedEmail row, restricted to the columns the verified logic
reads or writes; timestamps are abstract Nat instants. -/
structure GeneratedEmail where
  id : Nat
  lead_id : Option Nat
  recipient_email : Option String
  subject : Option String
  status : String
  reply_status : Option String
  replied_at : Option Nat
  reply_snippet : Option String
deriving DecidableEq

/-- Outcome of the validation gate at the top of the send_email handler. -/
inductive SendGate where
  | notFound
  | badStatus (status : String)
  | proceed
deriving DecidableEq

/-- Embeds the opening of send_email (app.py lines 3013-3018): a missing row
is a 404, a status outside ("approved", "pending_review") is a 400 carrying
the offending status, and otherwise the handler proceeds toward sending. -/
def send_email_gate (email : Option GeneratedEmail) : SendGate :=
  match email with
  | none => SendGate.notFound
  | some e =>
    if (["approved", "pending_review"].contains e.status) = false then
      SendGate.badStatus e.status
    else SendGate.proceed

/-!  Reply matcher (app.py, check_email_replies lines 3215-3343).  -/

/-- One inbox message as returned by the mail provider; optional fields model
the dict.get defaults the handler applies, and the received timestamp is an
abstract Nat instant (the ISO parsing is not modelled). -/
structure InboxMsg where
  subject : Option String
  fromAddr : Option String
  receivedDateTime : Option Nat
  bodyPreview : Option String
deriving DecidableEq

/-- Embeds msg.get("subject", ""). -/
def msgSubject (m : InboxMsg) : String := m.subject.getD ""

/-- Embeds the nested extraction of the sender address with default "". -/
def msgFromAddr (m : InboxMsg) : String := m.fromAddr.getD ""

/-- Embeds the is_reply test of check_email_replies (app.py lines 3291-3303):
the recipient must be truthy, the lowered sender must equal the lowered
recipient, the lowered message subject must start with "re:", and the
lowered original subject must occur inside the lowered message subject. -/
def is_reply (sent : GeneratedEmail) (m : InboxMsg) : Bool :=
  (lowerS (sent.recipient_email.getD "") ≠ "") &&
  lowerS (msgFromAddr m) == lowerS (sent.recipient_email.getD "") &&
  (startsWithS (lowerS (msgSubject m)) "re:" &&
   pyIn (lowerS (sent.subject.getD "")) (lowerS (msgSubject m)))

/-- Modelled from the spec words of the matching rule in section 4.3, for
comparison with is_reply: sender equals recipient case-insensitively, the
message subject starts with "re:" case-insensitively, and the sent subject is
contained case-insensitively in the message subject. -/
def specReplyRule (sent : GeneratedEmail) (m : InboxMsg) : Bool :=
  lowerS (msgFromAddr m) == lowerS (sent.recipient_email.getD "") &&
  startsWithS (lowerS (msgSubject m)) "re:" &&
  pyIn (lowerS (sent.subject.getD "")) (lowerS (msgSubject m))

/-- Embeds the field updates performed on a matched sent email (app.py lines
3306-3310): reply_status becomes "replied", replied_at takes the message
timestamp or the current instant, and the snippet keeps the first 500
characters of the body preview. -/
def record_reply (now : Nat) (m : InboxMsg) (sent : GeneratedEmail) : GeneratedEmail :=
  { sent with
    reply_status := some "replied",
    replied_at := some (match m.receivedDateTime with
      | some t => t
      | none => now),
    reply_snippet := some (takeS 500 (m.bodyPreview.getD "")) }

/-- Replace the first list element satisfying p by its image under f, as the
first() query followed by an in-place ORM mutation does. -/
def updateFirst (p : α → Bool) (f : α → α) : List α → List α
  | [] => []
  | x :: xs => if p x then f x :: xs else x :: updateFirst p f xs

/-- Embeds the lead auto-link (app.py lines 3316-3320): when the sent email
has no truthy lead_id and a truthy recipient, attach the first lead whose
stored email equals the recipient exactly. -/
def link_lead (leads : List Lead) (sent : GeneratedEmail) : GeneratedEmail :=
  if !natTruthy sent.lead_id && strTruthy sent.recipient_email then
    match leads.find? (fun l => l.email == sent.recipient_email) with
    | some matched => { sent with lead_id := some matched.id }
    | none => sent
  else sent

/-- Embeds the pipeline advance on reply (app.py lines 3322-3324): when the
sent email carries a truthy lead_id, the lead with that id is advanced to
"Connected"; a missing lead row leaves the table unchanged, exactly as
advance_lead_status no-ops on a None lead. -/
def advance_reply_lead (sent : GeneratedEmail) (leads : List Lead) : List Lead :=
  if natTruthy sent.lead_id then
    match sent.lead_id with
    | some lid =>
      updateFirst (fun l => l.id == lid)
        (fun l => (advance_lead_status (some l) "Connected").getD l) leads
    | none => leads
  else leads

/-- Embeds the inner loop of check_email_replies for one sent email: scan the
inbox messages in provider order, stop at the first is_reply match, record
the reply, link and advance the lead; the Bool reports whether a match was
found (the updated_count increment). -/
def process_sent_email (now : Nat) (msgs : List InboxMsg) (sent : GeneratedEmail)
    (leads : List Lead) : GeneratedEmail × List Lead × Bool :=
  match msgs with
  | [] => (sent, leads, false)
  | m :: rest =>
    if is_reply sent m then
      let sent1 := link_lead leads (record_reply now m sent)
      (sent1, advance_reply_lead sent1 leads, true)
    else process_sent_email now rest sent leads

/-- Embeds the eligibility filter of the check_email_replies query (app.py
lines 3259-3262), read as membership of reply_status in the Python list
["no_reply", None]: only sent emails still awaiting a reply are considered. -/
def eligible (e : GeneratedEmail) : Bool :=
  e.status == "sent" &&
  (e.reply_status == some "no_reply" || e.reply_status == none)

/-- Embeds one run of check_email_replies over the email table: eligible rows
are processed in order against the fetched inbox batch, ineligible rows are
untouched, and the Nat is the updated_count the handler reports. -/
def check_email_replies_run (now : Nat) (msgs : List InboxMsg) :
    List GeneratedEmail → List Lead → List GeneratedEmail × List Lead × Nat
  | [], leads => ([], leads, 0)
  | e :: es, leads =>
    if eligible e then
      let r := process_sent_email now msgs e leads
      let rest := check_email_replies_run now msgs es r.2.1
      (r.1 :: rest.1, rest.2.1, (if r.2.2 then 1 else 0) + rest.2.2)
    else
      let rest := check_email_replies_run now msgs es leads
      (e :: rest.1, rest.2.1, rest.2.2)

/-- Every pipeline index is at least -1. -/
theorem pipeIdx_ge_neg_one (s : String) : -1 ≤ pipeIdx s := by
  unfold pipeIdx
  cases h : PIPELINE_ORDER.findIdx? (fun t => t == s) with
  | none => simp
  | some i =>
    simp
    omega

/-- The empty string is not a pipeline status. -/
theorem pipeIdx_empty : pipeIdx "" = -1 := by decide

/-- C1: for a lead whose current status is not terminal, advance_lead_status
sets the status to the proposed value exactly when the proposed pipeline
index exceeds the current one (index -1 for values outside the canonical
order, the current status defaulting to "Not Contacted" when unset), and in
every other case the lead is left unchanged. -/
theorem advance_nonterminal_iff_forward (l : Lead) (proposed : String)
    (h : TERMINAL_STATUSES.contains (currentStatus l) = false) :
    advance_lead_status (some l) proposed =
      some (if pipeIdx proposed > pipeIdx (currentStatus l)
            then { l with status := some proposed } else l) := by
  simp only [advance_lead_status, h, Bool.false_eq_true, if_false]
  split <;> simp

/-- Witness for C1 at a concrete non-terminal lead. -/
theorem advance_nonterminal_iff_forward_witness :
    TERMINAL_STATUSES.contains (currentStatus ⟨1, none, some "Attempted"⟩) = false ∧
    advance_lead_status (some ⟨1, none, some "Attempted"⟩) "Connected" =
      some (if pipeIdx "Connected" > pipeIdx (currentStatus ⟨1, none, some "Attempted"⟩)
            then { Lead.mk 1 none (some "Attempted") with status := some "Connected" }
            else ⟨1, none, some "Attempted"⟩) :=
  ⟨by decide, advance_nonterminal_iff_forward ⟨1, none, some "Attempted"⟩ "Connected" (by decide)⟩

/-- C2: a lead whose status is Converted or Not Interested is never changed
by advance_lead_status, whatever the proposed status and reason. -/
theorem advance_terminal_frozen (l : Lead) (proposed : String)
    (h : l.status = some "Converted" ∨ l.status = some "Not Interested") :
    advance_lead_status (some l) proposed = some l := by
  have hc : currentStatus l = "Converted" ∨ currentStatus l = "Not Interested" := by
    rcases h with h | h <;> simp [currentStatus, h]
  rcases hc with hc | hc <;> simp [advance_lead_status, hc, TERMINAL_STATUSES]

/-- Witness for C2 at a concrete converted lead. -/
theorem advance_terminal_frozen_witness :
    (Lead.status ⟨2, none, some "Converted"⟩ = some "Converted" ∨
     Lead.status ⟨2, none, some "Converted"⟩ = some "Not Interested") ∧
    advance_lead_status (some ⟨2, none, some "Converted"⟩) "Attempted" =
      some ⟨2, none, some "Converted"⟩ :=
  ⟨Or.inl rfl, advance_terminal_frozen ⟨2, none, some "Converted"⟩ "Attempted" (Or.inl rfl)⟩

/-- C8: advancing a lead twice with the same proposed status yields the same
final lead as advancing it once. -/
theorem advance_idempotent (lead : Option Lead) (proposed : String) :
    advance_lead_status (advance_lead_status lead proposed) proposed =
      advance_lead_status lead proposed := by
  cases lead with
  | none => rfl
  | some l =>
    by_cases hterm : currentStatus l ∈ TERMINAL_STATUSES
    · simp [advance_lead_status, hterm]
    · by_cases hlt : pipeIdx proposed > pipeIdx (currentStatus l)
      · have h1 : advance_lead_status (some l) proposed =
            some { l with status := some proposed } := by
          simp [advance_lead_status, hterm, hlt]
        rw [h1]
        have hpos : 0 ≤ pipeIdx proposed := by
          have := pipeIdx_ge_neg_one (currentStatus l)
          omega
        have hne : proposed ≠ "" := by
          intro he
          rw [he, pipeIdx_empty] at hpos
          omega
        have hcur : currentStatus { l with status := some proposed } = proposed := by
          simp [currentStatus, hne]
        by_cases hterm2 : proposed ∈ TERMINAL_STATUSES
        · simp [advance_lead_status, hcur, hterm2]
        · simp [advance_lead_status, hcur, hterm2]
      · simp [advance_lead_status, hterm, hlt]

/-- C9: the core rules no-op on missing input: a None lead is returned
untouched by advance_lead_status, and categorize_email yields none on a None
or empty subject instead of failing. -/
theorem core_rules_defensive :
    (∀ proposed : String, advance_lead_status none proposed = none) ∧
    categorize_email none = none ∧ categorize_email (some "") = none :=
  ⟨fun _ => rfl, rfl, rfl⟩

/-- C3: the activity-logging endpoints invoke the pipeline rule with the
proposed status dictated by the logged activity: Connected for a Call whose
outcome is Connected or Interested, Attempted for any other Call, Attempted
for an Email, Connected for a Meeting, and no invocation for a Note or Task,
identically in quick_log_activity and create_log. -/
theorem log_activity_advancement_table (outcome : String) :
    (outcome = "Connected" ∨ outcome = "Interested" →
      quick_log_dispatch (some "Call") (some outcome) = some ("Connected", "call connected") ∧
      create_log_dispatch (some "Call") (some outcome) = some ("Connected", "call connected")) ∧
    (outcome ≠ "Connected" → outcome ≠ "Interested" →
      quick_log_dispatch (some "Call") (some outcome) = some ("Attempted", "call attempted") ∧
      create_log_dispatch (some "Call") (some outcome) = some ("Attempted", "call attempted")) ∧
    (quick_log_dispatch (some "Email") (some outcome) = some ("Attempted", "email logged") ∧
     create_log_dispatch (some "Email") (some outcome) = some ("Attempted", "email logged")) ∧
    (quick_log_dispatch (some "Meeting") (some outcome) = some ("Connected", "meeting logged") ∧
     create_log_dispatch (some "Meeting") (some outcome) = some ("Connected", "meeting logged")) ∧
    (quick_log_dispatch (some "Note") (some outcome) = none ∧
     create_log_dispatch (some "Note") (some outcome) = none) ∧
    (quick_log_dispatch (some "Task") (some outcome) = none ∧
     create_log_dispatch (some "Task") (some outcome) = none) := by
  refine ⟨?_, ?_, ?_, ?_, ?_, ?_⟩
  · intro h
    constructor <;> simp [quick_log_dispatch, create_log_dispatch, log_advance_action, h]
  · intro h1 h2
    constructor <;> simp [quick_log_dispatch, create_log_dispatch, log_advance_action, h1, h2]
  · constructor <;> simp [quick_log_dispatch, create_log_dispatch, log_advance_action]
  · constructor <;> simp [quick_log_dispatch, create_log_dispatch, log_advance_action]
  · constructor <;> simp [quick_log_dispatch, create_log_dispatch, log_advance_action]
  · constructor <;> simp [quick_log_dispatch, create_log_dispatch, log_advance_action]

/-- Witness for C3 at the concrete outcome Interested. -/
theorem log_activity_advancement_table_witness :
    ("Interested" = "Connected" ∨ ("Interested" : String) = "Interested") ∧
    (quick_log_dispatch (some "Call") (some "Interested") = some ("Connected", "call connected") ∧
     create_log_dispatch (some "Call") (some "Interested") = some ("Connected", "call connected")) :=
  ⟨Or.inr rfl, (log_activity_advancement_table "Interested").1 (Or.inr rfl)⟩

/-- The nested category loop returns the first category, in list order, with
a keyword contained in the subject. -/
theorem findCategory_eq (sl : String) (L : List (String × List String)) :
    findCategory sl L =
      (L.find? (fun ck => ck.2.any (fun k => pyIn k sl))).map Prod.fst := by
  induction L with
  | nil => rfl
  | cons hd tl ih =>
    obtain ⟨cat, kws⟩ := hd
    by_cases hp : kws.any (fun k => pyIn k sl) = true
    · simp [findCategory, List.find?, hp]
    · simp only [Bool.not_eq_true] at hp
      simp [findCategory, List.find?, hp, ih]

/-- C4: categorize_email lower-cases the subject and returns the first
category, in the fixed taxonomy order, one of whose keywords occurs in the
lowered subject, and none on an empty subject or when no keyword occurs; the
four concrete examples from the spec evaluate accordingly. -/
theorem categorize_email_spec :
    (∀ s : String, categorize_email (some s) =
      if s = "" then none
      else (OUTREACH_CATEGORIES.find?
              (fun ck => ck.2.any (fun k => pyIn k (lowerS s)))).map Prod.fst) ∧
    categorize_email (some "Quick follow up on our call") = some "follow_up" ∧
    categorize_email (some "Re: Pricing for your project") = some "contract_deal" ∧
    categorize_email (some "") = none ∧
    categorize_email (some "Happy Monday!") = none := by
  refine ⟨?_, by decide, by decide, rfl, by decide⟩
  intro s
  by_cases hs : s = ""
  · simp [categorize_email, hs]
  · simp [categorize_email, hs, findCategory_eq]

/-- C10: the send_email handler refuses with a 400 exactly when the status
of the email row is neither approved nor pending_review; in particular
pending_review and approved emails pass the gate while draft, rejected and
already sent ones do not. -/
theorem send_email_status_gate (e : GeneratedEmail) :
    (send_email_gate (some e) = SendGate.badStatus e.status ↔
      e.status ≠ "approved" ∧ e.status ≠ "pending_review") ∧
    send_email_gate (some { e with status := "pending_review" }) = SendGate.proceed ∧
    send_email_gate (some { e with status := "approved" }) = SendGate.proceed ∧
    send_email_gate (some { e with status := "draft" }) = SendGate.badStatus "draft" ∧
    send_email_gate (some { e with status := "rejected" }) = SendGate.badStatus "rejected" ∧
    send_email_gate (some { e with status := "sent" }) = SendGate.badStatus "sent" := by
  refine ⟨?_, ?_, ?_, ?_, ?_, ?_⟩
  · by_cases h1 : e.status = "approved"
    · simp [send_email_gate, h1]
    · by_cases h2 : e.status = "pending_review"
      · simp [send_email_gate, h2]
      · simp [send_email_gate, h1, h2]
  · simp [send_email_gate]
  · simp [send_email_gate]
  · simp [send_email_gate]
  · simp [send_email_gate]
  · simp [send_email_gate]

/-- C5 counterexample: with an empty recipient address stored on the sent
email and an empty sender address on the inbox message, the spec matching
rule is satisfied, yet the code does not treat the message as a reply (its
truthiness guard on the recipient fails), refuting the stated equivalence. -/
theorem reply_rule_counterexample :
    specReplyRule ⟨7, none, some "", some "Hello", "sent", some "no_reply", none, none⟩
        ⟨some "Re: Hello", some "", none, none⟩ = true ∧
    is_reply ⟨7, none, some "", some "Hello", "sent", some "no_reply", none, none⟩
        ⟨some "Re: Hello", some "", none, none⟩ = false := by
  decide

/-- C5 amended: the matcher treats M as a reply to S iff S carries a
non-empty recipient address, the lowered sender address equals the lowered
recipient address, the lowered message subject starts with "re:", and the
lowered sent subject is contained in the lowered message subject; the three
concrete examples of the spec behave as stated. -/
theorem reply_rule_characterization :
    (∀ (sent : GeneratedEmail) (m : InboxMsg),
      is_reply sent m = true ↔
        (lowerS (sent.recipient_email.getD "") ≠ "" ∧
         lowerS (msgFromAddr m) = lowerS (sent.recipient_email.getD "") ∧
         startsWithS (lowerS (msgSubject m)) "re:" = true ∧
         pyIn (lowerS (sent.subject.getD "")) (lowerS (msgSubject m)) = true)) ∧
    is_reply ⟨8, none, some "a@x.com", some "Introduction - Acme", "sent", some "no_reply", none, none⟩
        ⟨some "RE: Introduction - Acme", some "a@x.com", none, none⟩ = true ∧
    is_reply ⟨8, none, some "a@x.com", some "Introduction - Acme", "sent", some "no_reply", none, none⟩
        ⟨some "RE: Introduction - Acme", some "b@x.com", none, none⟩ = false ∧
    is_reply ⟨8, none, some "a@x.com", some "Introduction - Acme", "sent", some "no_reply", none, none⟩
        ⟨some "Introduction - Acme", some "a@x.com", none, none⟩ = false := by
  refine ⟨?_, by decide, by decide, by decide⟩
  intro sent m
  simp [is_reply, Bool.and_eq_true, decide_eq_true_eq, beq_iff_eq, and_assoc]

/-- Linking a lead only touches the lead_id column: the reply-tracking
fields of the sent email survive link_lead unchanged. -/
theorem link_lead_reply_fields (leads : List Lead) (e : GeneratedEmail) :
    (link_lead leads e).reply_status = e.reply_status ∧
    (link_lead leads e).replied_at = e.replied_at ∧
    (link_lead leads e).reply_snippet = e.reply_snippet := by
  unfold link_lead
  split
  · cases h : leads.find? (fun l => l.email == e.recipient_email) <;> simp [h]
  · simp

/-- Scanning past non-matching messages reaches the first match and stops. -/
theorem process_reaches_first_match (now : Nat) (rest : List InboxMsg) (m : InboxMsg)
    (sent : GeneratedEmail) (leads : List Lead) (hm : is_reply sent m = true) :
    ∀ pr : List InboxMsg, (∀ m' ∈ pr, is_reply sent m' = false) →
      process_sent_email now (pr ++ m :: rest) sent leads =
        (link_lead leads (record_reply now m sent),
         advance_reply_lead (link_lead leads (record_reply now m sent)) leads, true) := by
  intro pr
  induction pr with
  | nil => intro _; simp [process_sent_email, hm]
  | cons p ps ih =>
    intro hpre
    have hp : is_reply sent p = false := hpre p (by simp)
    have hps : ∀ m' ∈ ps, is_reply sent m' = false := fun m' h => hpre m' (by simp [h])
    simpa [process_sent_email, hp] using ih hps

/-- C6: for one sent email the matcher walks the inbox batch in provider
order, takes the first matching message and ignores everything after it, and
on that match it records reply_status "replied", replied_at equal to the
message timestamp (or the current instant when the timestamp is absent), and
the first 500 characters of the body preview as the snippet. -/
theorem reply_first_match_policy (now : Nat) (pre rest : List InboxMsg) (m : InboxMsg)
    (sent : GeneratedEmail) (leads : List Lead)
    (hpre : ∀ m' ∈ pre, is_reply sent m' = false)
    (hm : is_reply sent m = true) :
    process_sent_email now (pre ++ m :: rest) sent leads =
      (link_lead leads (record_reply now m sent),
       advance_reply_lead (link_lead leads (record_reply now m sent)) leads, true) ∧
    (process_sent_email now (pre ++ m :: rest) sent leads).1.reply_status = some "replied" ∧
    (process_sent_email now (pre ++ m :: rest) sent leads).1.replied_at =
      some (m.receivedDateTime.getD now) ∧
    (process_sent_email now (pre ++ m :: rest) sent leads).1.reply_snippet =
      some (takeS 500 (m.bodyPreview.getD "")) := by
  have key := process_reaches_first_match now rest m sent leads hm pre hpre
  refine ⟨key, ?_, ?_, ?_⟩ <;> rw [key]
  · rw [(link_lead_reply_fields leads (record_reply now m sent)).1]
    simp [record_reply]
  · rw [(link_lead_reply_fields leads (record_reply now m sent)).2.1]
    cases h : m.receivedDateTime <;> simp [record_reply, h]
  · rw [(link_lead_reply_fields leads (record_reply now m sent)).2.2]
    simp [record_reply]

/-- Witness for C6 on a concrete two-message inbox batch. -/
theorem reply_first_match_policy_witness :
    (∀ m' ∈ [InboxMsg.mk (some "spam") (some "z@x.com") none none],
        is_reply ⟨3, some 5, some "a@x.com", some "Intro", "sent", some "no_reply", none, none⟩
          m' = false) ∧
    is_reply ⟨3, some 5, some "a@x.com", some "Intro", "sent", some "no_reply", none, none⟩
        ⟨some "Re: Intro", some "a@x.com", some 42, some "Thanks"⟩ = true ∧
    (process_sent_email 10
        ([⟨some "spam", some "z@x.com", none, none⟩] ++
          [⟨some "Re: Intro", some "a@x.com", some 42, some "Thanks"⟩])
        ⟨3, some 5, some "a@x.com", some "Intro", "sent", some "no_reply", none, none⟩
        []).1.reply_status = some "replied" :=
  ⟨by decide, by decide,
    (reply_first_match_policy 10 [⟨some "spam", some "z@x.com", none, none⟩] []
        ⟨some "Re: Intro", some "a@x.com", some 42, some "Thanks"⟩
        ⟨3, some 5, some "a@x.com", some "Intro", "sent", some "no_reply", none, none⟩ []
        (by decide) (by decide)).2.1⟩

/-- A sent email matching no inbox message is passed through untouched. -/
theorem process_no_match (now : Nat) (msgs : List InboxMsg) (sent : GeneratedEmail)
    (leads : List Lead) (h : ∀ m ∈ msgs, is_reply sent m = false) :
    process_sent_email now msgs sent leads = (sent, leads, false) := by
  induction msgs with
  | nil => rfl
  | cons m ms ih =>
    have hm : is_reply sent m = false := h m (by simp)
    have hms : ∀ m' ∈ ms, is_reply sent m' = false := fun m' h' => h m' (by simp [h'])
    simp [process_sent_email, hm, ih hms]

/-- After processing, a sent email is settled: either it came back untouched
with no matching message in the batch, or it is now marked replied. -/
theorem process_sent_email_settled (now : Nat) (msgs : List InboxMsg) (sent : GeneratedEmail)
    (leads : List Lead) :
    ((process_sent_email now msgs sent leads).1 = sent ∧
      ∀ m ∈ msgs, is_reply sent m = false) ∨
    (process_sent_email now msgs sent leads).1.reply_status = some "replied" := by
  induction msgs with
  | nil => left; exact ⟨rfl, by simp⟩
  | cons m ms ih =>
    by_cases hm : is_reply sent m = true
    · right
      simp only [process_sent_email, hm, if_true]
      rw [(link_lead_reply_fields leads (record_reply now m sent)).1]
      simp [record_reply]
    · simp only [Bool.not_eq_true] at hm
      rcases ih with ⟨h1, h2⟩ | hr
      · left
        constructor
        · simpa [process_sent_email, hm] using h1
        · intro m' hm'
          rcases List.mem_cons.mp hm' with h | h
          · rw [h]; exact hm
          · exact h2 m' h
      · right
        simpa [process_sent_email, hm] using hr

/-- An email marked replied is not eligible for the reply check. -/
theorem eligible_replied_false (e : GeneratedEmail) (h : e.reply_status = some "replied") :
    eligible e = false := by
  simp [eligible, h]

/-- Every email in the output of a run is settled with respect to the batch:
either it is no longer eligible or no message of the batch matches it. -/
theorem run_settled (now : Nat) (msgs : List InboxMsg) :
    ∀ (emails : List GeneratedEmail) (leads : List Lead),
      ∀ e ∈ (check_email_replies_run now msgs emails leads).1,
        eligible e = false ∨ ∀ m ∈ msgs, is_reply e m = false := by
  intro emails
  induction emails with
  | nil =>
    intro leads e he
    simp [check_email_replies_run] at he
  | cons x xs ih =>
    intro leads e he
    by_cases hx : eligible x = true
    · simp only [check_email_replies_run, hx, if_true, List.mem_cons] at he
      rcases he with he | he
      · rcases process_sent_email_settled now msgs x leads with ⟨h1, h2⟩ | hr
        · right
          intro m hm
          rw [he, h1]
          exact h2 m hm
        · left
          rw [he]
          exact eligible_replied_false _ hr
      · exact ih _ e he
    · simp only [Bool.not_eq_true] at hx
      simp only [check_email_replies_run, hx, Bool.false_eq_true, if_false,
        List.mem_cons] at he
      rcases he with he | he
      · left; rw [he]; exact hx
      · exact ih _ e he

/-- A run over settled emails reports zero updates. -/
theorem run_count_zero (now : Nat) (msgs : List InboxMsg) :
    ∀ (emails : List GeneratedEmail) (leads : List Lead),
      (∀ e ∈ emails, eligible e = false ∨ ∀ m ∈ msgs, is_reply e m = false) →
      (check_email_replies_run now msgs emails leads).2.2 = 0 := by
  intro emails
  induction emails with
  | nil => intro leads _; rfl
  | cons x xs ih =>
    intro leads h
    have hxs : ∀ e ∈ xs, eligible e = false ∨ ∀ m ∈ msgs, is_reply e m = false :=
      fun e he => h e (by simp [he])
    rcases h x (by simp) with hx | hx
    · simp [check_email_replies_run, hx, ih _ hxs]
    · by_cases hel : eligible x = true
      · simp [check_email_replies_run, hel, process_no_match now msgs x leads hx, ih _ hxs]
      · simp only [Bool.not_eq_true] at hel
        simp [check_email_replies_run, hel, ih _ hxs]

/-- A run never alters an ineligible row: the output list is pointwise the
input list wherever the input row was not awaiting a reply. -/
theorem run_preserves_ineligible (now : Nat) (msgs : List InboxMsg) :
    ∀ (emails : List GeneratedEmail) (leads : List Lead),
      List.Forall₂ (fun e e' => eligible e = false → e' = e) emails
        (check_email_replies_run now msgs emails leads).1 := by
  intro emails
  induction emails with
  | nil => intro leads; simp [check_email_replies_run]
  | cons x xs ih =>
    intro leads
    by_cases hx : eligible x = true
    · simp only [check_email_replies_run, hx, if_true]
      refine List.Forall₂.cons ?_ (ih _)
      intro hfalse
      rw [hfalse] at hx
      cases hx
    · simp only [Bool.not_eq_true] at hx
      simp only [check_email_replies_run, hx, Bool.false_eq_true, if_false]
      exact List.Forall₂.cons (fun _ => rfl) (ih _)

/-- C7: a run of the reply matcher only updates sent emails that were still
awaiting a reply (status sent with reply_status no_reply or null): every
other row reappears unchanged, and a second run over the output against the
same inbox batch reports zero further updates, so a once-replied email is
never re-evaluated. -/
theorem check_replies_only_pending_idempotent (now now2 : Nat) (msgs : List InboxMsg)
    (emails : List GeneratedEmail) (leads leads2 : List Lead) :
    List.Forall₂ (fun e e' => eligible e = false → e' = e) emails
      (check_email_replies_run now msgs emails leads).1 ∧
    (check_email_replies_run now2 msgs
      (check_email_replies_run now msgs emails leads).1 leads2).2.2 = 0 :=
  ⟨run_preserves_ineligible now msgs emails leads,
   run_count_zero now2 msgs _ leads2 (run_settled now msgs emails leads)⟩

end DWTool
